import Mathlib

/-!
Verification of the kernel_gen bufferize pass
(`tensorflow/compiler/mlir/tools/kernel_gen/transforms/bufferize_pass.cc`).

The pass configures an MLIR dialect-conversion run: it builds a
`ConversionTarget` (dialect-level and operation-level legality rules,
including dynamically evaluated per-kind predicates), a
`BufferizeTypeConverter`, a set of rewrite patterns (two of them defined
locally in the source file), and then invokes either
`applyPartialConversion` or `applyFullConversion` depending on the
`allow_partial_bufferization` flag.

The target registrations and the two local patterns are embedded directly
from the source.  The conversion driver, the type converter and the
region-legality check are MLIR framework code that is not part of this
repository's sources; those parts are modelled from the specification and
are marked `Modelled from the spec:` below.
-/

/-- Types as far as this pass distinguishes them: ranked/unranked value
arrays (tensors), ranked/unranked buffers (memrefs), and everything else
(scalars, opaque types).  A shape is a list of dimensions, `none` meaning
a dynamic dimension. -/
inductive Ty where
  | rankedTensor (elem : String) (shape : List (Option Nat))
  | unrankedTensor (elem : String)
  | memref (elem : String) (shape : List (Option Nat))
  | unrankedMemref (elem : String)
  | scalar (tag : String)
  deriving DecidableEq

/-- Whether a type `isa<TensorType>` (ranked or unranked value array). -/
def isTensorTy : Ty → Bool
  | .rankedTensor _ _ => true
  | .unrankedTensor _ => true
  | _ => false

/-- Whether a type `isa<UnrankedTensorType>`. -/
def isUnrankedTensorTy : Ty → Bool
  | .unrankedTensor _ => true
  | _ => false

/-- Modelled from the spec: `BufferizeTypeConverter.convertType` (framework
code not under src/).  A ranked or unranked value-array type becomes the
corresponding buffer type with the same element type and shape; every other
type is left unchanged. -/
def convertType : Ty → Ty
  | .rankedTensor e s => .memref e s
  | .unrankedTensor e => .unrankedMemref e
  | .memref e s => .memref e s
  | .unrankedMemref e => .unrankedMemref e
  | .scalar t => .scalar t

/-- Modelled from the spec: `TypeConverter.isLegal` on a single type — true
iff one pass through `convertType` leaves the type unchanged. -/
def isLegalType (t : Ty) : Bool := decide (convertType t = t)

/-- Modelled from the spec: `TypeConverter.isLegal` on a type list. -/
def isLegalTypes (ts : List Ty) : Bool := ts.all isLegalType

/-- An operation inside a function body, reduced to its operand and result
types (all the region-legality check looks at). -/
structure BodyOp where
  opnds : List Ty
  ress : List Ty
  deriving DecidableEq

/-- A block: typed block arguments plus a sequence of operations. -/
structure Block where
  argTypes : List Ty
  ops : List BodyOp
  deriving DecidableEq

/-- Every type appearing inside a region (block argument types and the
operand/result types of every operation in every block). -/
def regionTypes (r : List Block) : List Ty :=
  r.flatMap (fun b => b.argTypes ++ b.ops.flatMap (fun o => o.opnds ++ o.ress))

/-- Modelled from the spec: `TypeConverter.isLegal` on a region (framework
code not under src/) — every type appearing inside the region must already
be in target form. -/
def isLegalRegion (r : List Block) : Bool := (regionTypes r).all isLegalType

/-- An operation, as far as legality classification needs it: its dialect,
its kind name, its operand and result types, and (for function-like
operations) the declared signature and the body region. -/
structure Op where
  dialect : String
  name : String
  operandTypes : List Ty
  resultTypes : List Ty
  funcInputs : List Ty
  funcResults : List Ty
  body : List Block
  deriving DecidableEq

/-- Build a plain (non-function) operation. -/
def mkOp (d n : String) (opnds ress : List Ty) : Op :=
  ⟨d, n, opnds, ress, [], [], []⟩

/-- Build a function-like operation (`FuncOp`) from its declared input and
result types and its body region. -/
def mkFuncOp (ins outs : List Ty) (body : List Block) : Op :=
  ⟨"builtin", "func", [], [], ins, outs, body⟩

/-- The dynamic legality predicate registered for `ConstantOp` and
`SelectOp` at the first registration site:
`llvm::none_of(op->getResultTypes(), [](Type t) { return t.isa<TensorType>(); })`. -/
def noTensorResults (op : Op) : Bool :=
  op.resultTypes.all (fun t => !(isTensorTy t))

/-- The dynamic legality predicate registered for `TensorStoreOp`:
`!op.tensor().getType().isa<UnrankedTensorType>()`.  The stored tensor is
operand 0 of a `tensor_store` operation; the empty-operand branch is
unreachable for well-formed stores. -/
def tensorStoreIsLegal (op : Op) : Bool :=
  match op.operandTypes with
  | t :: _ => !(isUnrankedTensorTy t)
  | [] => true

/-- The `typesAreLegal` lambda of the source: operand types and result
types are all already in target form. -/
def typesAreLegal (op : Op) : Bool :=
  isLegalTypes op.operandTypes && isLegalTypes op.resultTypes

/-- The dynamic legality predicate registered for `FuncOp`: declared inputs
legal, declared results legal, and the body region legal. -/
def funcOpIsLegal (op : Op) : Bool :=
  isLegalTypes op.funcInputs && isLegalTypes op.funcResults &&
    isLegalRegion op.body

/-- A legality action recorded in the conversion target: unconditionally
legal, unconditionally illegal, or dynamically decided by a predicate. -/
inductive LegAction where
  | legal
  | illegal
  | dyn (pred : Op → Bool)

/-- The conversion target: per-operation-kind actions and per-dialect
actions, kept in registration order.  In MLIR a later registration for the
same kind overwrites an earlier one (`setLegalityCallback` replaces the
stored callback), so lookups must return the last matching entry. -/
structure ConversionTarget where
  opActions : List (String × LegAction)
  dialectActions : List (String × LegAction)

/-- Verdict of the legality oracle for one operation. -/
inductive Legality where
  | Legal
  | Illegal
  | Unknown
  deriving DecidableEq

/-- Last registration wins: return the action of the last entry whose key
matches, if any. -/
def lookupLast : List (String × LegAction) → String → Option LegAction
  | [], _ => none
  | (n, a) :: rest, k =>
    match lookupLast rest k with
    | some a2 => some a2
    | none => if n == k then some a else none

/-- Classify one operation: an operation-level action (most specific) wins
over a dialect-level action; a dynamic predicate returns Legal or Illegal
directly; with no applicable registration the verdict is Unknown. -/
def classify (tgt : ConversionTarget) (op : Op) : Legality :=
  match lookupLast tgt.opActions op.name with
  | some .legal => .Legal
  | some .illegal => .Illegal
  | some (.dyn p) => if p op then .Legal else .Illegal
  | none =>
    match lookupLast tgt.dialectActions op.dialect with
    | some .legal => .Legal
    | some .illegal => .Illegal
    | some (.dyn p) => if p op then .Legal else .Illegal
    | none => .Unknown

/-- The conversion target built by `BufferizePass::runOnOperation`, in
source order: six legal dialects; `ModuleOp`/`ModuleTerminatorOp` legal;
the mhlo dialect illegal; four tensor operations always illegal;
`TensorLoadOp`/`TensorToMemrefOp` illegal only when partial bufferization
is not allowed; then the dynamic registrations.  `ConstantOp` and
`SelectOp` are registered twice — the second (typesAreLegal) registration
overwrites the first, which `lookupLast` reflects. -/
def bufferizeTarget (allow_partial_bufferization : Bool) : ConversionTarget :=
  { opActions :=
      [("module", .legal), ("module_terminator", .legal),
       ("std.dynamic_tensor_from_elements", .illegal),
       ("std.extract_element", .illegal),
       ("std.tensor_from_elements", .illegal),
       ("std.tensor_cast", .illegal)]
      ++ (if !allow_partial_bufferization then
            [("std.tensor_load", .illegal), ("std.tensor_to_memref", .illegal)]
          else [])
      ++ [("std.constant", .dyn noTensorResults),
          ("std.select", .dyn noTensorResults),
          ("std.tensor_store", .dyn tensorStoreIsLegal),
          ("func", .dyn funcOpIsLegal),
          ("std.call", .dyn typesAreLegal),
          ("std.constant", .dyn typesAreLegal),
          ("std.dim", .dyn typesAreLegal),
          ("std.rank", .dyn typesAreLegal),
          ("std.select", .dyn typesAreLegal),
          ("std.return", .dyn typesAreLegal)],
    dialectActions :=
      [("scf", .legal), ("std", .legal), ("tf_framework", .legal),
       ("affine", .legal), ("shape", .legal), ("lmhlo", .legal),
       ("mhlo", .illegal)] }

/-- A value in the graph is named by a numeric id; the graph records, for
each value, the operation defining it (`none` for a block or function
argument, where `getDefiningOp()` returns null) and the list of operations
using it. -/
structure Graph where
  definingOp : Nat → Option Nat
  uses : Nat → List Nat

/-- The fields of a `tensor_store` operation: the stored tensor value
(`op.tensor()`) and the destination buffer value (`op.memref()`). -/
structure StoreOp where
  tensor : Nat
  memref : Nat
  deriving DecidableEq

/-- One rewrite step recorded by a pattern: `rewriter.replaceOp(target,
newValues)` replaces every use of `target`'s results, graph-wide, with
`newValues` and erases `target`; an empty `newValues` list erases an
operation that produces no results. -/
inductive RewriteAction where
  | replaceOpWith (opId : Nat) (newValues : List Nat)
  deriving DecidableEq

/-- Outcome of one `matchAndRewrite` invocation.  `noMatch` is the
framework's "pattern did not apply" signal (`failure()`); `nullDeref`
marks the undefined behaviour of calling a method through the null
`Operation*` that `getDefiningOp()` returns for a block argument. -/
inductive PatternOutcome where
  | success (actions : List RewriteAction)
  | noMatch
  | nullDeref
  deriving DecidableEq

/-- `UnrankedTensorStoreTestOnlyPattern::matchAndRewrite`, embedded from
the source.  The body is
`rewriter.replaceOp(op.memref().getDefiningOp(), op.tensor());
 rewriter.replaceOp(op, {}); return success();` —
it unconditionally returns success, uses `op.tensor()` (the original
stored value) and ignores the converted `operands` argument, and performs
no null check on `getDefiningOp()`, so a destination that is a block or
function argument leads to a null dereference. -/
def unrankedTensorStoreMatchAndRewrite (g : Graph) (storeId : Nat)
    (op : StoreOp) (operands : List Nat) : PatternOutcome :=
  match g.definingOp op.memref with
  | some d =>
    .success [.replaceOpWith d [op.tensor], .replaceOpWith storeId []]
  | none => .nullDeref

/-- A conversion pattern for the driver model: given an operation, either
a replacement (list of result operations) or no match. -/
def ConvPattern : Type := Op → Option (List Op)

/-- A module: the list of operations the driver sweeps over. -/
structure ModuleIR where
  ops : List Op
  deriving DecidableEq

/-- Try the registered patterns in order, returning the first successful
rewrite. -/
def tryPatterns : List ConvPattern → Op → Option (List Op)
  | [], _ => none
  | p :: rest, op =>
    match p op with
    | some r => some r
    | none => tryPatterns rest op

/-- Modelled from the spec: one sweep of the conversion driver over the
module.  A Legal operation is left unchanged; an Illegal or Unknown
operation is replaced by the result of the first matching pattern, and
left as-is when no pattern matches (pattern rollback is transactional, so
a failed attempt leaves no trace). -/
def sweepOnce (tgt : ConversionTarget) (pats : List ConvPattern)
    (m : ModuleIR) : ModuleIR :=
  ⟨m.ops.flatMap (fun op =>
    if classify tgt op = Legality.Legal then [op]
    else
      match tryPatterns pats op with
      | some newOps => newOps
      | none => [op])⟩

/-- Modelled from the spec: iterate sweeps until a full sweep changes
nothing (fixpoint); the fuel bound makes the recursion structural. -/
def runToFixpoint (tgt : ConversionTarget) (pats : List ConvPattern) :
    Nat → ModuleIR → ModuleIR
  | 0, m => m
  | fuel + 1, m =>
    if sweepOnce tgt pats m = m then m
    else runToFixpoint tgt pats fuel (sweepOnce tgt pats m)

/-- Result of a driver run: the (possibly partially) rewritten module,
tagged with success or failure.  On failure the module carried is the
mutated one — the run is not transactional at module level. -/
inductive ConversionResult where
  | ok (m : ModuleIR)
  | err (m : ModuleIR)

/-- Modelled from the spec: partial-mode driver — stop at fixpoint and
report success unconditionally; operations that stayed illegal remain in
the result verbatim. -/
def applyPartialConversion (tgt : ConversionTarget)
    (pats : List ConvPattern) (fuel : Nat) (m : ModuleIR) :
    ConversionResult :=
  .ok (runToFixpoint tgt pats fuel m)

/-- Modelled from the spec: full-mode driver — at fixpoint, report failure
iff some operation is still classified Illegal or Unknown; the failure
carries the mutated module (no rollback). -/
def applyFullConversion (tgt : ConversionTarget)
    (pats : List ConvPattern) (fuel : Nat) (m : ModuleIR) :
    ConversionResult :=
  if (runToFixpoint tgt pats fuel m).ops.all
      (fun op => decide (classify tgt op = Legality.Legal)) then
    .ok (runToFixpoint tgt pats fuel m)
  else
    .err (runToFixpoint tgt pats fuel m)

/-- `BufferizePass::runOnOperation`, embedded from the source: build the
target, then run `applyPartialConversion` when partial bufferization is
allowed and `applyFullConversion` otherwise; `signalPassFailure()` (the
returned Boolean) is called exactly when the chosen driver fails. -/
def runOnOperation (allow_partial_bufferization : Bool)
    (pats : List ConvPattern) (fuel : Nat) (m : ModuleIR) :
    Bool × ModuleIR :=
  if allow_partial_bufferization then
    match applyPartialConversion (bufferizeTarget allow_partial_bufferization)
        pats fuel m with
    | .ok m2 => (false, m2)
    | .err m2 => (true, m2)
  else
    match applyFullConversion (bufferizeTarget allow_partial_bufferization)
        pats fuel m with
    | .ok m2 => (false, m2)
    | .err m2 => (true, m2)

/-- A type is already legal for the converter exactly when it is not a
value-array (tensor) type. -/
theorem isLegalType_eq_not_isTensorTy (t : Ty) :
    isLegalType t = !(isTensorTy t) := by
  cases t <;> simp [isLegalType, convertType, isTensorTy]

/-- An operation that is Legal, or that no pattern matches, survives one
driver sweep unchanged. -/
theorem mem_sweepOnce_preserved (tgt : ConversionTarget)
    (pats : List ConvPattern) (op : Op) (m : ModuleIR)
    (h : classify tgt op = Legality.Legal ∨ tryPatterns pats op = none)
    (hm : op ∈ m.ops) : op ∈ (sweepOnce tgt pats m).ops := by
  have hin : op ∈ (if classify tgt op = Legality.Legal then [op]
      else
        match tryPatterns pats op with
        | some newOps => newOps
        | none => [op]) := by
    rcases h with h | h
    · simp [h]
    · by_cases hc : classify tgt op = Legality.Legal
      · simp [hc]
      · simp [hc, h]
  exact List.mem_flatMap.mpr ⟨op, hm, hin⟩

/-- An operation that is Legal, or that no pattern matches, survives the
whole fixpoint iteration unchanged. -/
theorem mem_runToFixpoint_preserved (tgt : ConversionTarget)
    (pats : List ConvPattern) (fuel : Nat) (op : Op)
    (h : classify tgt op = Legality.Legal ∨ tryPatterns pats op = none) :
    ∀ m : ModuleIR, op ∈ m.ops → op ∈ (runToFixpoint tgt pats fuel m).ops := by
  induction fuel with
  | zero => intro m hm; exact hm
  | succ n ih =>
    intro m hm
    rw [runToFixpoint]
    by_cases he : sweepOnce tgt pats m = m
    · rw [if_pos he]; exact hm
    · rw [if_neg he]
      exact ih _ (mem_sweepOnce_preserved tgt pats op m h hm)

/-- Whatever the mode and the outcome, the module the pass leaves behind is
the fixpoint module — mutations are never rolled back. -/
theorem runOnOperation_snd (allow_partial_bufferization : Bool)
    (pats : List ConvPattern) (fuel : Nat) (m : ModuleIR) :
    (runOnOperation allow_partial_bufferization pats fuel m).2
      = runToFixpoint (bufferizeTarget allow_partial_bufferization)
          pats fuel m := by
  cases allow_partial_bufferization
  · show (match applyFullConversion (bufferizeTarget false) pats fuel m with
      | .ok m2 => (false, m2)
      | .err m2 => (true, m2)).2 = _
    rw [applyFullConversion]
    by_cases hall : (runToFixpoint (bufferizeTarget false) pats fuel m).ops.all
        (fun op => decide (classify (bufferizeTarget false) op = Legality.Legal)) = true
    · rw [if_pos hall]
    · rw [if_neg hall]
  · rfl

/-- C1: in partial mode (`allow_partial_bufferization = true`) the pass
reports success unconditionally for every input module, and every
operation that is not classified Legal and that no pattern ever matches
remains verbatim in the final IR; failure is never signalled. -/
theorem C1_partial_mode_success_unconditional
    (pats : List ConvPattern) (fuel : Nat) (m : ModuleIR) :
    (runOnOperation true pats fuel m).1 = false
    ∧ ∀ op : Op, op ∈ m.ops →
        classify (bufferizeTarget true) op ≠ Legality.Legal →
        tryPatterns pats op = none →
        op ∈ (runOnOperation true pats fuel m).2.ops := by
  constructor
  · rfl
  · intro op hm hnl hp
    rw [runOnOperation_snd]
    exact mem_runToFixpoint_preserved _ _ fuel op (Or.inr hp) m hm

/-- Witness for C1: a module holding a single mhlo operation (Illegal, no
pattern registered) converts "successfully" in partial mode and the
operation survives verbatim. -/
theorem C1_partial_mode_success_unconditional_witness :
    (runOnOperation true [] 2
        ⟨[mkOp "mhlo" "mhlo.add" [Ty.unrankedTensor "f32"]
            [Ty.unrankedTensor "f32"]]⟩).1 = false
    ∧ mkOp "mhlo" "mhlo.add" [Ty.unrankedTensor "f32"]
          [Ty.unrankedTensor "f32"]
        ∈ (runOnOperation true [] 2
            ⟨[mkOp "mhlo" "mhlo.add" [Ty.unrankedTensor "f32"]
                [Ty.unrankedTensor "f32"]]⟩).2.ops := by
  have h := C1_partial_mode_success_unconditional [] 2
    ⟨[mkOp "mhlo" "mhlo.add" [Ty.unrankedTensor "f32"]
        [Ty.unrankedTensor "f32"]]⟩
  exact ⟨h.1, h.2 (mkOp "mhlo" "mhlo.add" [Ty.unrankedTensor "f32"]
    [Ty.unrankedTensor "f32"]) (by decide) (by decide) rfl⟩

/-- C4: in full mode, if at fixpoint some operation is still classified
Illegal or Unknown, the pass signals failure and hands back the mutated
fixpoint module — the rewrites performed so far are not rolled back. -/
theorem C4_full_mode_failure_keeps_mutations
    (pats : List ConvPattern) (fuel : Nat) (m : ModuleIR)
    (h : ∃ op ∈ (runToFixpoint (bufferizeTarget false) pats fuel m).ops,
        classify (bufferizeTarget false) op = Legality.Illegal ∨
          classify (bufferizeTarget false) op = Legality.Unknown) :
    runOnOperation false pats fuel m
      = (true, runToFixpoint (bufferizeTarget false) pats fuel m) := by
  obtain ⟨op, hmem, hbad⟩ := h
  have hall : (runToFixpoint (bufferizeTarget false) pats fuel m).ops.all
      (fun o => decide (classify (bufferizeTarget false) o = Legality.Legal))
        = false := by
    apply Bool.eq_false_iff.mpr
    intro hT
    have hop := List.all_eq_true.mp hT op hmem
    rcases hbad with hb | hb <;> rw [hb] at hop <;> simp at hop
  simp [runOnOperation, applyFullConversion, hall]

/-- Witness for C4: a one-operation mhlo module is already at fixpoint with
no patterns; full mode fails and returns the module as mutated (here:
unchanged). -/
theorem C4_full_mode_failure_keeps_mutations_witness :
    runOnOperation false [] 1 ⟨[mkOp "mhlo" "mhlo.add" [] []]⟩
      = (true, ⟨[mkOp "mhlo" "mhlo.add" [] []]⟩) := by
  have h := C4_full_mode_failure_keeps_mutations [] 1
    ⟨[mkOp "mhlo" "mhlo.add" [] []]⟩
    ⟨mkOp "mhlo" "mhlo.add" [] [], by decide, Or.inl (by decide)⟩
  exact h.trans (by decide)

/-- C6: `TensorLoadOp` and `TensorToMemrefOp` carry an illegality
registration exactly when partial bufferization has not been allowed; in
partial mode the target holds no operation-level entry for either kind at
all. -/
theorem C6_tensor_load_to_memref_illegal_iff_full_mode :
    lookupLast (bufferizeTarget false).opActions "std.tensor_load"
        = some LegAction.illegal
    ∧ lookupLast (bufferizeTarget false).opActions "std.tensor_to_memref"
        = some LegAction.illegal
    ∧ lookupLast (bufferizeTarget true).opActions "std.tensor_load" = none
    ∧ lookupLast (bufferizeTarget true).opActions "std.tensor_to_memref"
        = none :=
  ⟨rfl, rfl, rfl, rfl⟩

/-- C7: a `tensor_store` operation is classified Legal iff the stored
value's type is not an unranked value-array type, in both modes; the
dynamic per-kind predicate decides this even though the operation's
dialect (std) is registered unconditionally legal. -/
theorem C7_tensor_store_legal_iff_not_unranked
    (allow_partial_bufferization : Bool) (tTy mTy : Ty) :
    (classify (bufferizeTarget allow_partial_bufferization)
        (mkOp "std" "std.tensor_store" [tTy, mTy] []) = Legality.Legal
      ↔ isUnrankedTensorTy tTy = false)
    ∧ lookupLast (bufferizeTarget allow_partial_bufferization).dialectActions
        "std" = some LegAction.legal := by
  have hcl : classify (bufferizeTarget allow_partial_bufferization)
      (mkOp "std" "std.tensor_store" [tTy, mTy] [])
        = if !(isUnrankedTensorTy tTy) then Legality.Legal
          else Legality.Illegal := by
    cases allow_partial_bufferization <;> rfl
  refine ⟨?_, by cases allow_partial_bufferization <;> rfl⟩
  rw [hcl]
  cases h : isUnrankedTensorTy tTy <;> simp

/-- A type list is converter-legal exactly when it contains no tensor
type. -/
theorem all_isLegalType_eq (l : List Ty) :
    l.all isLegalType = l.all (fun t => !(isTensorTy t)) := by
  induction l with
  | nil => rfl
  | cons t ts ih => simp [List.all_cons, ih, isLegalType_eq_not_isTensorTy]

/-- C8: a function-like operation is classified Legal iff its declared
input types, its declared result types, and every type appearing inside
its body region are left unchanged by `convertType`, in both modes. -/
theorem C8_func_legal_iff_signature_and_body_converted
    (allow_partial_bufferization : Bool) (ins outs : List Ty)
    (body : List Block) :
    classify (bufferizeTarget allow_partial_bufferization)
        (mkFuncOp ins outs body) = Legality.Legal
      ↔ ∀ t ∈ ins ++ outs ++ regionTypes body, convertType t = t := by
  have hcl : classify (bufferizeTarget allow_partial_bufferization)
      (mkFuncOp ins outs body)
        = if funcOpIsLegal (mkFuncOp ins outs body) then Legality.Legal
          else Legality.Illegal := by
    cases allow_partial_bufferization <;> rfl
  have hiff : funcOpIsLegal (mkFuncOp ins outs body) = true
      ↔ ∀ t ∈ ins ++ outs ++ regionTypes body, convertType t = t := by
    simp only [funcOpIsLegal, mkFuncOp, isLegalTypes, isLegalRegion,
      isLegalType, Bool.and_eq_true, List.all_eq_true, decide_eq_true_eq,
      List.mem_append]
    constructor
    · rintro ⟨⟨h1, h2⟩, h3⟩ t ht
      rcases ht with (ht | ht) | ht
      · exact h1 t ht
      · exact h2 t ht
      · exact h3 t ht
    · intro h
      exact ⟨⟨fun t ht => h t (Or.inl (Or.inl ht)),
        fun t ht => h t (Or.inl (Or.inr ht))⟩,
        fun t ht => h t (Or.inr ht)⟩
  rw [hcl, ← hiff]
  cases hb : funcOpIsLegal (mkFuncOp ins outs body) <;> simp [hb]

/-- C10: the module container and its terminator are classified Legal in
both modes whatever their types, and the driver leaves a module operation
in place, never rewriting it and never failing because of it. -/
theorem C10_module_ops_always_legal
    (allow_partial_bufferization : Bool) (opnds ress : List Ty)
    (pats : List ConvPattern) (fuel : Nat) (m : ModuleIR) :
    classify (bufferizeTarget allow_partial_bufferization)
        (mkOp "builtin" "module" opnds ress) = Legality.Legal
    ∧ classify (bufferizeTarget allow_partial_bufferization)
        (mkOp "builtin" "module_terminator" opnds ress) = Legality.Legal
    ∧ (mkOp "builtin" "module" opnds ress ∈ m.ops →
        mkOp "builtin" "module" opnds ress
          ∈ (runOnOperation allow_partial_bufferization pats fuel m).2.ops) := by
  have h1 : classify (bufferizeTarget allow_partial_bufferization)
      (mkOp "builtin" "module" opnds ress) = Legality.Legal := by
    cases allow_partial_bufferization <;> rfl
  refine ⟨h1, by cases allow_partial_bufferization <;> rfl, fun hm => ?_⟩
  rw [runOnOperation_snd]
  exact mem_runToFixpoint_preserved _ _ fuel _ (Or.inl h1) m hm

/-- Witness for C10: a concrete module operation is Legal in partial mode
and survives a full-mode run verbatim. -/
theorem C10_module_ops_always_legal_witness :
    classify (bufferizeTarget true) (mkOp "builtin" "module" [] [])
        = Legality.Legal
    ∧ mkOp "builtin" "module" [] []
        ∈ (runOnOperation false [] 1
            ⟨[mkOp "builtin" "module" [] []]⟩).2.ops := by
  have h := C10_module_ops_always_legal false [] [] [] 1
    ⟨[mkOp "builtin" "module" [] []]⟩
  have h2 := C10_module_ops_always_legal true [] [] [] 0 ⟨[]⟩
  exact ⟨h2.1, h.2.2 (by decide)⟩

/-- C9: `matchAndRewrite` of the unranked-store pattern never returns the
no-match signal — it succeeds unconditionally — and when the destination
buffer has no defining operation (a block or function argument, where
`getDefiningOp()` returns null) it runs into the unchecked null
dereference instead of cleanly rejecting the match. -/
theorem C9_store_pattern_unchecked_defining_op :
    (∀ (g : Graph) (storeId : Nat) (s : StoreOp) (operands : List Nat),
        unrankedTensorStoreMatchAndRewrite g storeId s operands
          ≠ PatternOutcome.noMatch)
    ∧ (∀ (g : Graph) (storeId : Nat) (s : StoreOp) (operands : List Nat),
        g.definingOp s.memref = none →
        unrankedTensorStoreMatchAndRewrite g storeId s operands
          = PatternOutcome.nullDeref) := by
  constructor
  · intro g i s ops h
    unfold unrankedTensorStoreMatchAndRewrite at h
    cases hd : g.definingOp s.memref <;> rw [hd] at h <;> simp at h
  · intro g i s ops hnone
    unfold unrankedTensorStoreMatchAndRewrite
    rw [hnone]

/-- Witness for C9: a store whose destination is a block argument
(defining operation `none`) drives the pattern into the null dereference,
not into a no-match. -/
theorem C9_store_pattern_unchecked_defining_op_witness :
    (⟨fun _ => none, fun _ => []⟩ : Graph).definingOp 0 = none
    ∧ unrankedTensorStoreMatchAndRewrite
        ⟨fun _ => none, fun _ => []⟩ 3 ⟨1, 0⟩ [2]
        = PatternOutcome.nullDeref
    ∧ unrankedTensorStoreMatchAndRewrite
        ⟨fun _ => none, fun _ => []⟩ 3 ⟨1, 0⟩ [2]
        ≠ PatternOutcome.noMatch :=
  ⟨rfl,
   C9_store_pattern_unchecked_defining_op.2
     ⟨fun _ => none, fun _ => []⟩ 3 ⟨1, 0⟩ [2] rfl,
   C9_store_pattern_unchecked_defining_op.1
     ⟨fun _ => none, fun _ => []⟩ 3 ⟨1, 0⟩ [2]⟩

/-- C2 counterexample: destination value 0 is defined by operation 5 and
has use 9 besides the store (operation 3); the claim says the pattern must
return no-match and leave both operations, but `matchAndRewrite` fires and
schedules both erasures anyway. -/
theorem C2_counterexample_fires_despite_extra_use :
    (9 ∈ (⟨fun v => if v == 0 then some 5 else none,
            fun v => if v == 0 then [3, 9] else []⟩ : Graph).uses 0
      ∧ 9 ≠ 3)
    ∧ unrankedTensorStoreMatchAndRewrite
        ⟨fun v => if v == 0 then some 5 else none,
         fun v => if v == 0 then [3, 9] else []⟩ 3 ⟨1, 0⟩ [1]
        ≠ PatternOutcome.noMatch
    ∧ unrankedTensorStoreMatchAndRewrite
        ⟨fun v => if v == 0 then some 5 else none,
         fun v => if v == 0 then [3, 9] else []⟩ 3 ⟨1, 0⟩ [1]
        = PatternOutcome.success
            [RewriteAction.replaceOpWith 5 [1],
             RewriteAction.replaceOpWith 3 []] := by
  decide

/-- C2 amended: the pattern imposes no use-count condition at all — for
every store whose destination has a defining operation it returns success
(erasing both operations), even when the destination has additional uses
outside the store; it never returns no-match.  (Restricting the driver to
unranked stores is done by the legality predicate, not by the pattern.) -/
theorem C2_amended_pattern_fires_despite_extra_use
    (g : Graph) (storeId : Nat) (s : StoreOp) (operands : List Nat)
    (d u : Nat) (hdef : g.definingOp s.memref = some d)
    (hu : u ∈ g.uses s.memref) (hne : u ≠ storeId) :
    unrankedTensorStoreMatchAndRewrite g storeId s operands
        ≠ PatternOutcome.noMatch
    ∧ ∃ acts, unrankedTensorStoreMatchAndRewrite g storeId s operands
        = PatternOutcome.success acts := by
  unfold unrankedTensorStoreMatchAndRewrite
  rw [hdef]
  exact ⟨by simp, ⟨_, rfl⟩⟩

/-- Witness for the amended C2: the counterexample graph, with extra use 9
of the destination, still makes the pattern fire. -/
theorem C2_amended_pattern_fires_despite_extra_use_witness :
    unrankedTensorStoreMatchAndRewrite
        ⟨fun v => if v == 0 then some 5 else none,
         fun v => if v == 0 then [3, 9] else []⟩ 3 ⟨1, 0⟩ [1]
      ≠ PatternOutcome.noMatch := by
  have h := C2_amended_pattern_fires_despite_extra_use
    ⟨fun v => if v == 0 then some 5 else none,
     fun v => if v == 0 then [3, 9] else []⟩ 3 ⟨1, 0⟩ [1] 5 9 rfl
    (by decide) (by decide)
  exact h.1

/-- C3 counterexample: the store holds original tensor value 1, while the
converted operand presented to the pattern is value 2; the rewrite
replaces the destination with value 1 — the original operand — not with
the converted value 2 the claim prescribes. -/
theorem C3_counterexample_ignores_converted_operand :
    unrankedTensorStoreMatchAndRewrite
        ⟨fun v => if v == 0 then some 5 else none, fun _ => []⟩ 4 ⟨1, 0⟩ [2]
      ≠ PatternOutcome.success
          [RewriteAction.replaceOpWith 5 [2],
           RewriteAction.replaceOpWith 4 []]
    ∧ unrankedTensorStoreMatchAndRewrite
        ⟨fun v => if v == 0 then some 5 else none, fun _ => []⟩ 4 ⟨1, 0⟩ [2]
      = PatternOutcome.success
          [RewriteAction.replaceOpWith 5 [1],
           RewriteAction.replaceOpWith 4 []] := by
  decide

/-- C3 amended: when the pattern fires, its rewrite replaces every use of
the destination value with `op.tensor()` — the original stored value as it
appears on the operation, not the converted operand — erases the
destination's defining operation and the store itself, and produces no
results. -/
theorem C3_amended_rewrite_uses_original_operand
    (g : Graph) (storeId : Nat) (s : StoreOp) (operands : List Nat)
    (d : Nat) (hdef : g.definingOp s.memref = some d) :
    unrankedTensorStoreMatchAndRewrite g storeId s operands
      = PatternOutcome.success
          [RewriteAction.replaceOpWith d [s.tensor],
           RewriteAction.replaceOpWith storeId []] := by
  unfold unrankedTensorStoreMatchAndRewrite
  rw [hdef]

/-- Witness for the amended C3: concrete rewrite actions for a store of
original value 1 (converted operand 2) into the result of operation 5. -/
theorem C3_amended_rewrite_uses_original_operand_witness :
    unrankedTensorStoreMatchAndRewrite
        ⟨fun v => if v == 0 then some 5 else none, fun _ => []⟩ 4 ⟨1, 0⟩ [2]
      = PatternOutcome.success
          [RewriteAction.replaceOpWith 5 [1],
           RewriteAction.replaceOpWith 4 []] :=
  C3_amended_rewrite_uses_original_operand
    ⟨fun v => if v == 0 then some 5 else none, fun _ => []⟩ 4 ⟨1, 0⟩ [2] 5 rfl

/-- C5: for constant and select operations the effective legality rule is
the second registration (`typesAreLegal`, which overwrites the first); for
a constant (which has no operands) it is Legal iff no result type is a
tensor, and for a well-formed select (whose condition can only be a tensor
when the result is) the same holds; a constant with scalar result type is
Legal and survives a driver run in either mode untouched. -/
theorem C5_constant_select_legal_iff_no_tensor_result
    (allow_partial_bufferization : Bool) (ress : List Ty) (condTy rTy : Ty)
    (hcond : isTensorTy condTy = true → isTensorTy rTy = true) :
    (classify (bufferizeTarget allow_partial_bufferization)
        (mkOp "std" "std.constant" [] ress) = Legality.Legal
      ↔ ress.all (fun t => !(isTensorTy t)) = true)
    ∧ (classify (bufferizeTarget allow_partial_bufferization)
        (mkOp "std" "std.select" [condTy, rTy, rTy] [rTy]) = Legality.Legal
      ↔ isTensorTy rTy = false)
    ∧ (ress.all (fun t => !(isTensorTy t)) = true →
        ∀ (mode : Bool) (pats : List ConvPattern) (fuel : Nat)
          (m : ModuleIR),
          mkOp "std" "std.constant" [] ress ∈ m.ops →
          mkOp "std" "std.constant" [] ress
            ∈ (runOnOperation mode pats fuel m).2.ops) := by
  have hconst : ∀ b : Bool,
      classify (bufferizeTarget b) (mkOp "std" "std.constant" [] ress)
          = Legality.Legal
        ↔ ress.all (fun t => !(isTensorTy t)) = true := by
    intro b
    have hcl : classify (bufferizeTarget b)
        (mkOp "std" "std.constant" [] ress)
          = if typesAreLegal (mkOp "std" "std.constant" [] ress) then
              Legality.Legal
            else Legality.Illegal := by
      cases b <;> rfl
    have hTA : typesAreLegal (mkOp "std" "std.constant" [] ress)
        = ress.all (fun t => !(isTensorTy t)) := by
      simp [typesAreLegal, mkOp, isLegalTypes, all_isLegalType_eq]
    rw [hcl, hTA]
    cases hall : ress.all (fun t => !(isTensorTy t)) <;> simp
  refine ⟨hconst allow_partial_bufferization, ?_, ?_⟩
  · have hcl : classify (bufferizeTarget allow_partial_bufferization)
        (mkOp "std" "std.select" [condTy, rTy, rTy] [rTy])
          = if typesAreLegal (mkOp "std" "std.select" [condTy, rTy, rTy]
              [rTy]) then Legality.Legal
            else Legality.Illegal := by
      cases allow_partial_bufferization <;> rfl
    rw [hcl]
    cases hT : isTensorTy rTy
    · have hc : isTensorTy condTy = false := by
        cases hcc : isTensorTy condTy
        · rfl
        · have hr := hcond hcc
          rw [hT] at hr
          cases hr
      have hTA : typesAreLegal (mkOp "std" "std.select" [condTy, rTy, rTy]
          [rTy]) = true := by
        simp [typesAreLegal, mkOp, isLegalTypes, List.all_cons,
          isLegalType_eq_not_isTensorTy, hc, hT]
      rw [hTA]
      simp
    · have hTA : typesAreLegal (mkOp "std" "std.select" [condTy, rTy, rTy]
          [rTy]) = false := by
        simp [typesAreLegal, mkOp, isLegalTypes, List.all_cons,
          isLegalType_eq_not_isTensorTy, hT]
      rw [hTA]
      simp
  · intro hall mode pats fuel m hm
    rw [runOnOperation_snd]
    exact mem_runToFixpoint_preserved _ _ fuel _
      (Or.inl ((hconst mode).mpr hall)) m hm

/-- Witness for C5: a scalar-typed constant and a scalar-typed select are
Legal in full mode, and the constant survives a partial-mode run
verbatim. -/
theorem C5_constant_select_legal_iff_no_tensor_result_witness :
    classify (bufferizeTarget false)
        (mkOp "std" "std.constant" [] [Ty.scalar "i32"]) = Legality.Legal
    ∧ classify (bufferizeTarget false)
        (mkOp "std" "std.select"
          [Ty.scalar "i1", Ty.scalar "f32", Ty.scalar "f32"]
          [Ty.scalar "f32"]) = Legality.Legal
    ∧ mkOp "std" "std.constant" [] [Ty.scalar "i32"]
        ∈ (runOnOperation true [] 1
            ⟨[mkOp "std" "std.constant" [] [Ty.scalar "i32"]]⟩).2.ops := by
  have h := C5_constant_select_legal_iff_no_tensor_result false
    [Ty.scalar "i32"] (Ty.scalar "i1") (Ty.scalar "f32") (by decide)
  exact ⟨h.1.mpr (by decide), h.2.1.mpr (by decide),
    h.2.2 (by decide) true [] 1 _ (by decide)⟩
